import Mathlib

/-!
Verification of the CADC bearer-token lifecycle manager
(`src/python/lsst/daf/butler/remote_butler/authentication/cadc.py`).

The module has three pieces:
  * `get_cadc_authorize_url` — endpoint discovery from the openid-configuration
    document;
  * `CadcAuthenticationProvider._token_is_valid` — the token validator
    (base64-decode the cached token, extract `expirytime=(\d+)`, compare with
    `int(time.time())`);
  * `CadcAuthenticationProvider.token` / `get_server_headers` /
    `get_datastore_headers` — the lifecycle manager proper.

We embed the Python shallowly: machine state (the `CADC_TOKEN` environment
slot and the manager's `_token` field) is explicit, the network is an oracle
(`World`), exceptions are values of `PyErr`, and the recursive `token`
property is fuel-indexed (fuel exhaustion models Python's `RecursionError`).
Logging calls are side-effect free in the embedding and are dropped.
-/

namespace CadcAuth

/-! ### Python `base64.b64decode` on a `str` input

`base64.b64decode(s)` first encodes `s` as ASCII (raising `ValueError` on any
non-ASCII character), then runs `binascii.a2b_base64` in non-strict mode:
characters outside the base64 alphabet are discarded, a quad state machine
emits bytes, padding `=` after at least two data characters in the current
quad terminates input once the quad is completed, and a leftover partial quad
at end of input is an error. -/

/-- Value of a base64 alphabet character (`A-Z a-z 0-9 + /`), else `none`. -/
def b64Val (c : Char) : Option Nat :=
  if 'A' ≤ c ∧ c ≤ 'Z' then some (c.toNat - 65)
  else if 'a' ≤ c ∧ c ≤ 'z' then some (c.toNat - 97 + 26)
  else if '0' ≤ c ∧ c ≤ '9' then some (c.toNat - 48 + 52)
  else if c = '+' then some 62
  else if c = '/' then some 63
  else none

/-- `binascii.a2b_base64` in non-strict mode: quad-position state machine.
Arguments: remaining input, quad position (0–3), pending high bits, count of
padding characters seen in the current quad, accumulated output (reversed). -/
def a2bB64 : List Char → Nat → Nat → Nat → List Nat → Option (List Nat)
  | [], quadPos, _, _, acc =>
      if quadPos = 0 then some acc.reverse else none
  | c :: rest, quadPos, leftchar, pads, acc =>
      if c = '=' then
        if 2 ≤ quadPos then
          if 4 ≤ quadPos + (pads + 1) then some acc.reverse
          else a2bB64 rest quadPos leftchar (pads + 1) acc
        else a2bB64 rest quadPos leftchar pads acc
      else
        match b64Val c with
        | none => a2bB64 rest quadPos leftchar pads acc
        | some v =>
          match quadPos with
          | 0 => a2bB64 rest 1 v 0 acc
          | 1 => a2bB64 rest 2 (v % 16) 0 ((leftchar * 4 + v / 16) :: acc)
          | 2 => a2bB64 rest 3 (v % 4) 0 ((leftchar * 16 + v / 4) :: acc)
          | _ => a2bB64 rest 0 0 0 ((leftchar * 64 + v) :: acc)

/-- `base64.b64decode` applied to a Python `str`: ASCII-encode, then decode. -/
def pyB64Decode (s : String) : Option (List Nat) :=
  if s.toList.all (fun c => c.toNat < 128) then a2bB64 s.toList 0 0 0 []
  else none

/-- Is `b` a UTF-8 continuation byte (`0x80–0xBF`)? -/
def isCont (b : Nat) : Bool := decide (0x80 ≤ b) && decide (b ≤ 0xBF)

/-- `bytes.decode("utf-8")` (strict): reject overlong encodings, surrogates
and code points above `0x10FFFF`. -/
def utf8Decode : List Nat → Option (List Char)
  | [] => some []
  | b :: rest =>
    if b < 0x80 then
      (utf8Decode rest).map (fun cs => Char.ofNat b :: cs)
    else if 0xC2 ≤ b ∧ b ≤ 0xDF then
      match rest with
      | b2 :: rest2 =>
        if isCont b2 then
          (utf8Decode rest2).map
            (fun cs => Char.ofNat ((b - 0xC0) * 64 + (b2 - 0x80)) :: cs)
        else none
      | [] => none
    else if 0xE0 ≤ b ∧ b ≤ 0xEF then
      match rest with
      | b2 :: b3 :: rest3 =>
        let lowOk : Bool :=
          if b = 0xE0 then decide (0xA0 ≤ b2) && decide (b2 ≤ 0xBF)
          else if b = 0xED then decide (0x80 ≤ b2) && decide (b2 ≤ 0x9F)
          else isCont b2
        if lowOk && isCont b3 then
          (utf8Decode rest3).map
            (fun cs =>
              Char.ofNat ((b - 0xE0) * 4096 + (b2 - 0x80) * 64 + (b3 - 0x80)) :: cs)
        else none
      | _ => none
    else if 0xF0 ≤ b ∧ b ≤ 0xF4 then
      match rest with
      | b2 :: b3 :: b4 :: rest4 =>
        let lowOk : Bool :=
          if b = 0xF0 then decide (0x90 ≤ b2) && decide (b2 ≤ 0xBF)
          else if b = 0xF4 then decide (0x80 ≤ b2) && decide (b2 ≤ 0x8F)
          else isCont b2
        if lowOk && isCont b3 && isCont b4 then
          (utf8Decode rest4).map
            (fun cs =>
              Char.ofNat
                ((b - 0xF0) * 262144 + (b2 - 0x80) * 4096 + (b3 - 0x80) * 64 +
                  (b4 - 0x80)) :: cs)
        else none
      | _ => none
    else none

/-- `base64.b64decode(token).decode("utf-8")`: the decode pipeline inside
`_token_is_valid`; `none` models a raised (and later swallowed) exception. -/
def decodeToken (s : String) : Option (List Char) :=
  (pyB64Decode s).bind utf8Decode

/-! ### `re.search(r"expirytime=(\d+)", decoded_str)` and `int(...)`

Leftmost match of the literal key followed by a maximal (greedy) digit run.
(`\d` is modelled as the ASCII digits `0-9`.) -/

/-- The literal part of the pattern. -/
def expiryKey : List Char := "expirytime=".toList

/-- `int` of a nonempty ASCII digit string. -/
def digitsVal (ds : List Char) : Nat :=
  ds.foldl (fun a c => 10 * a + (c.toNat - 48)) 0

/-- Try to match `expirytime=(\d+)` anchored at the head of `cs`, returning
the captured number. -/
def matchExpiryAt (cs : List Char) : Option Nat :=
  if expiryKey.isPrefixOf cs then
    let ds := (cs.drop expiryKey.length).takeWhile Char.isDigit
    if ds.isEmpty then none else some (digitsVal ds)
  else none

/-- `re.search`: leftmost position where the pattern matches. -/
def findExpiry : List Char → Option Nat
  | [] => none
  | c :: rest =>
    match matchExpiryAt (c :: rest) with
    | some v => some v
    | none => findExpiry rest

/-- `CadcAuthenticationProvider._token_is_valid`, as a function of the cached
token and of `int(time.time())`.  Every exception inside the `try` block
(base64 error, unicode error) is swallowed and yields `False`. -/
def token_is_valid (tok : Option String) (now : Nat) : Bool :=
  match tok with
  | none => false
  | some t =>
    match decodeToken t with
    | none => false
    | some decoded =>
      match findExpiry decoded with
      | none => false
      | some expTime => decide (expTime > now)

/-! ### Endpoint discovery: `get_cadc_authorize_url`

The network is an oracle.  Fetching the openid-configuration document can
fail at transport level or with a non-success status (`RequestException`),
fail to parse as JSON (`requests.exceptions.JSONDecodeError`, a subclass of
`RequestException`), or yield a JSON object, modelled as an association list
of string fields. -/

/-- Outcome of `requests.get(CADC_OPENID_CONFIG_URL)` + `.raise_for_status()`
+ `.json()`, as supplied by the environment. -/
inductive ConfigFetch where
  | transportError (cause : String)
  | parseError (cause : String)
  | jsonOk (config : List (String × String))
deriving DecidableEq, Repr

/-- A Python exception escaping the code under study. -/
inductive PyErr where
  /-- `raise RuntimeError(msg) from cause`. -/
  | runtimeError (msg : String) (cause : String)
  /-- Uncaught `KeyError(key)` from a dict subscript. -/
  | keyError (key : String)
  /-- Uncaught `OSError` raised by `requests` when the `cert` file is
  missing (checked by the library before any network I/O). -/
  | osError (msg : String)
  /-- Python's `RecursionError`, modelling fuel exhaustion of the
  self-recursive `token` property. -/
  | recursionError
deriving DecidableEq, Repr

/-- `get_cadc_authorize_url()`.  The `except` clause catches only
`requests.exceptions.RequestException`; the dict subscript
`config["authorization_endpoint"]` is outside its protection, so a missing
field escapes as a `KeyError`. -/
def get_cadc_authorize_url (fetch : ConfigFetch) : Except PyErr String :=
  match fetch with
  | .transportError e =>
      .error (.runtimeError "Could not retrieve CADC authorization URL" e)
  | .parseError e =>
      .error (.runtimeError "Could not retrieve CADC authorization URL" e)
  | .jsonOk config =>
      match config.lookup "authorization_endpoint" with
      | some url => .ok url
      | none => .error (.keyError "authorization_endpoint")

/-- Does the result of `get_cadc_authorize_url` carry the error the spec
names `DiscoveryError` (the `RuntimeError` raised in its `except` clause)? -/
def isDiscoveryError (r : Except PyErr String) : Bool :=
  match r with
  | .error (.runtimeError _ _) => true
  | _ => false

/-! ### The lifecycle manager -/

/-- `CADC_TOKEN_ENV_VAR`. -/
def CADC_TOKEN_ENV_VAR : String := "CADC_TOKEN"

/-- State owned by one `CadcAuthenticationProvider` plus the process-wide
`os.environ` it reads and writes. -/
structure ManagerState where
  /-- `os.environ`, restricted to string-valued variables. -/
  environ : List (String × String)
  /-- `self._token`. -/
  _token : Option String
deriving DecidableEq, Repr

/-- `os.environ.get(k)`. -/
def envGet (env : List (String × String)) (k : String) : Option String :=
  env.lookup k

/-- `os.environ[k] = v`. -/
def envSet (env : List (String × String)) (k v : String) :
    List (String × String) :=
  match env with
  | [] => [(k, v)]
  | (k2, v2) :: rest => if k2 = k then (k, v) :: rest else (k2, v2) :: envSet rest k v

/-- `CadcAuthenticationProvider.__init__`: read the credential slot into the
in-memory field. -/
def CadcAuthenticationProvider.init (environ : List (String × String)) :
    ManagerState :=
  ⟨environ, envGet environ CADC_TOKEN_ENV_VAR⟩

instance exceptDecEq {ε α : Type} [DecidableEq ε] [DecidableEq α] :
    DecidableEq (Except ε α) := fun x y =>
  match x, y with
  | .error e1, .error e2 =>
      if h : e1 = e2 then .isTrue (by rw [h])
      else .isFalse (fun hh => h (by cases hh; rfl))
  | .ok a1, .ok a2 =>
      if h : a1 = a2 then .isTrue (by rw [h])
      else .isFalse (fun hh => h (by cases hh; rfl))
  | .error _, .ok _ => .isFalse (fun hh => Except.noConfusion hh)
  | .ok _, .error _ => .isFalse (fun hh => Except.noConfusion hh)

/-- The environment of one `token` call: the wall clock, the result of
discovery, whether `~/.ssl/cadcproxy.pem` exists, and the outcome of the
certificate-authenticated `GET` to the authorization endpoint (`.ok` carries
`response.text`, `.error` the `RequestException` cause, covering both an
unreachable endpoint and a non-success status via `raise_for_status`). -/
structure World where
  now : Nat
  config : ConfigFetch
  certExists : Bool
  authorize : Except String String
deriving DecidableEq, Repr

/-- Result of one `token` property call: the returned token or the escaping
exception, the post-call state, and the number of network requests made to
the discovery URL and to the authorization endpoint. -/
structure CallResult where
  result : Except PyErr String
  state : ManagerState
  nDiscovery : Nat
  nRefresh : Nat
deriving DecidableEq, Repr

/-- The `token` property.  Fuel models Python's recursion limit: the final
`return self.token` re-enters the property, so a refresh that yields an
invalid token recurses.  When the certificate file is missing, `requests`
raises `OSError` before any network I/O, outside the `except
RequestException` clause. -/
def tokenCall : Nat → ManagerState → World → CallResult
  | 0, st, _ => ⟨.error .recursionError, st, 0, 0⟩
  | fuel + 1, st, w =>
    if token_is_valid st._token w.now then
      ⟨.ok (st._token.getD ""), st, 0, 0⟩
    else
      match get_cadc_authorize_url w.config with
      | .error e => ⟨.error e, st, 1, 0⟩
      | .ok _authUrl =>
        if w.certExists then
          match w.authorize with
          | .error cause =>
              ⟨.error (.runtimeError "Could not retrieve CADC token" cause), st, 1, 1⟩
          | .ok body =>
              let environ2 := envSet st.environ CADC_TOKEN_ENV_VAR body
              let st2 : ManagerState := ⟨environ2, envGet environ2 CADC_TOKEN_ENV_VAR⟩
              let r := tokenCall fuel st2 w
              ⟨r.result, r.state, 1 + r.nDiscovery, 1 + r.nRefresh⟩
        else
          ⟨.error (.osError "Could not find the TLS certificate file"), st, 1, 0⟩

/-- `get_server_headers`. -/
def get_server_headers (fuel : Nat) (st : ManagerState) (w : World) :
    Except PyErr (List (String × String)) × ManagerState × Nat × Nat :=
  let r := tokenCall fuel st w
  match r.result with
  | .ok t => (.ok [("Authorization", "Bearer " ++ t)], r.state, r.nDiscovery, r.nRefresh)
  | .error e => (.error e, r.state, r.nDiscovery, r.nRefresh)

/-- `get_datastore_headers`. -/
def get_datastore_headers (fuel : Nat) (st : ManagerState) (w : World) :
    Except PyErr (List (String × String)) × ManagerState × Nat × Nat :=
  let r := tokenCall fuel st w
  match r.result with
  | .ok t => (.ok [("Authorization", "Bearer " ++ t)], r.state, r.nDiscovery, r.nRefresh)
  | .error e => (.error e, r.state, r.nDiscovery, r.nRefresh)

/-! ### Concrete tokens used in witnesses and counterexamples -/

/-- Base64 of `expirytime=9999999999` (far future). -/
def validTok : String := "ZXhwaXJ5dGltZT05OTk5OTk5OTk5"

/-- Base64 of `expirytime=5` (long expired). -/
def expiredTok : String := "ZXhwaXJ5dGltZT01"

/-- Base64 of `expirytime=100` (for the boundary `expiry = now`). -/
def eqTok : String := "ZXhwaXJ5dGltZT0xMDA="

/-! Sanity checks: the embedding evaluated at inputs whose behaviour was
established for the corresponding Python functions. -/

example : decodeToken "ZXhwaXJ5dGltZT01" = some "expirytime=5".toList := by decide
example : decodeToken "A" = none := by decide
example : decodeToken "" = some [] := by decide
example : decodeToken "zz" = none := by decide
example : decodeToken "QQ==XX" = some ['A'] := by decide
example : token_is_valid (some "ZXhwaXJ5dGltZT05OTk5OTk5OTk5") 100 = true := by decide
example : token_is_valid (some "ZXhwaXJ5dGltZT0xMDA=") 100 = false := by decide
example : token_is_valid (some "ZXhwaXJ5dGltZT0xMDA=") 99 = true := by decide
example : token_is_valid (some "dXNlcmlkPWJvYiZleHBpcnl0aW1lPTI1MA==") 100 = true := by decide
example : token_is_valid none 0 = false := by decide

example :
    tokenCall 3 ⟨[], none⟩
      ⟨100, .jsonOk [("authorization_endpoint", "u")], true, .ok validTok⟩ =
    ⟨.ok validTok, ⟨[("CADC_TOKEN", validTok)], some validTok⟩, 1, 1⟩ := by decide

example :
    tokenCall 3 ⟨[], none⟩
      ⟨100, .jsonOk [("authorization_endpoint", "u")], true, .ok "zz"⟩ =
    ⟨.error .recursionError, ⟨[("CADC_TOKEN", "zz")], some "zz"⟩, 3, 3⟩ := by decide

/-! ### Helper lemmas -/

theorem envGet_envSet (env : List (String × String)) (k v : String) :
    envGet (envSet env k v) k = some v := by
  induction env with
  | nil => simp [envGet, envSet, List.lookup]
  | cons p rest ih =>
    obtain ⟨k2, v2⟩ := p
    by_cases h : k2 = k
    · simp [envGet, envSet, h, List.lookup]
    · have hb : (k == k2) = false := beq_eq_false_iff_ne.mpr (Ne.symm h)
      simp only [envSet, if_neg h, envGet, List.lookup, hb]
      exact ih

theorem tokenCall_fast_path (fuel : Nat) (st : ManagerState) (w : World)
    (t : String) (ht : st._token = some t)
    (hv : token_is_valid st._token w.now = true) :
    tokenCall (fuel + 1) st w = ⟨.ok t, st, 0, 0⟩ := by
  have hv' : token_is_valid (some t) w.now = true := ht ▸ hv
  simp [tokenCall, ht, hv']

theorem tokenCall_refresh_ok (fuel : Nat) (st : ManagerState) (w : World)
    (url body : String)
    (hinv : token_is_valid st._token w.now = false)
    (hurl : get_cadc_authorize_url w.config = .ok url)
    (hcert : w.certExists = true)
    (hbody : w.authorize = .ok body) :
    tokenCall (fuel + 1) st w =
      (let r := tokenCall fuel
          ⟨envSet st.environ CADC_TOKEN_ENV_VAR body, some body⟩ w
       ⟨r.result, r.state, 1 + r.nDiscovery, 1 + r.nRefresh⟩) := by
  simp [tokenCall, hinv, hurl, hcert, hbody, envGet_envSet]

/-! ### Claims -/

/-- C1: `_token_is_valid` returns true iff the cached token is present,
base64-decodable (including UTF-8 decoding of the bytes), contains an
`expirytime=<digits>` field, and the extracted epoch-seconds integer is
strictly greater than the current wall-clock epoch-seconds; in particular an
absent token yields false, and a token whose expiry equals the current time
yields false. -/
theorem validator_iff_decodable_expiry_future (tok : Option String) (now : Nat) :
    (token_is_valid tok now = true ↔
      ∃ t, tok = some t ∧ ∃ d, decodeToken t = some d ∧
        ∃ e, findExpiry d = some e ∧ now < e)
    ∧ token_is_valid none now = false
    ∧ (∀ t d e, tok = some t → decodeToken t = some d → findExpiry d = some e →
        e = now → token_is_valid tok now = false) := by
  refine ⟨?_, rfl, ?_⟩
  · cases tok with
    | none => simp [token_is_valid]
    | some t =>
      simp only [token_is_valid]
      cases hd : decodeToken t with
      | none => simp [hd]
      | some d =>
        cases he : findExpiry d with
        | none => simp [hd, he]
        | some e => simp [hd, he, gt_iff_lt]
  · intro t d e ht hd he heq
    subst ht
    subst heq
    simp [token_is_valid, hd, he]

theorem validator_iff_decodable_expiry_future_witness :
    token_is_valid (some eqTok) 100 = false ∧
      token_is_valid (some validTok) 100 = true :=
  ⟨(validator_iff_decodable_expiry_future (some eqTok) 100).2.2
      eqTok "expirytime=100".toList 100 rfl (by decide) (by decide) rfl,
   (validator_iff_decodable_expiry_future (some validTok) 100).1.mpr
      ⟨validTok, rfl, "expirytime=9999999999".toList, by decide,
        9999999999, by decide, by decide⟩⟩

/-- C2: the validator is total and swallows failures: a token that fails
base64/UTF-8 decoding is reported invalid, and a decoded token lacking an
`expirytime=` field is reported invalid; no error propagates out (in the
embedding `token_is_valid` is a total `Bool`-valued function, so every input
yields `true` or `false`). -/
theorem validator_never_raises (t : String) (now : Nat) :
    (decodeToken t = none → token_is_valid (some t) now = false)
    ∧ (∀ d, decodeToken t = some d → findExpiry d = none →
        token_is_valid (some t) now = false)
    ∧ token_is_valid none now = false := by
  refine ⟨?_, ?_, rfl⟩
  · intro hd
    simp [token_is_valid, hd]
  · intro d hd he
    simp [token_is_valid, hd, he]

theorem validator_never_raises_witness :
    token_is_valid (some "A") 0 = false ∧ token_is_valid (some "") 0 = false :=
  ⟨(validator_never_raises "A" 0).1 (by decide),
   (validator_never_raises "" 0).2.1 [] (by decide) rfl⟩

/-- An expired cached token in both the credential slot and the manager. -/
def exStaleSt : ManagerState := ⟨[("CADC_TOKEN", expiredTok)], some expiredTok⟩

/-- Discovery and authorization both reachable; refresh returns `validTok`. -/
def wRefreshOk : World :=
  ⟨100, .jsonOk [("authorization_endpoint", "https://auth.example/token")], true,
    .ok validTok⟩

/-- Whole network down, certificate absent. -/
def wOffline : World := ⟨200, .transportError "net down", false, .error "net down"⟩

/-- C4: whenever the cached token is valid at the current time,
`get_datastore_headers` performs zero network calls and returns exactly
`{"Authorization": "Bearer <token>"}` with the state (hence the cached token)
unchanged. -/
theorem datastore_headers_fast_path (fuel : Nat) (st : ManagerState) (w : World)
    (t : String) (ht : st._token = some t)
    (hv : token_is_valid st._token w.now = true) :
    get_datastore_headers (fuel + 1) st w =
      (.ok [("Authorization", "Bearer " ++ t)], st, 0, 0) := by
  simp [get_datastore_headers, tokenCall_fast_path fuel st w t ht hv]

theorem datastore_headers_fast_path_witness :
    get_datastore_headers 1 ⟨[("CADC_TOKEN", validTok)], some validTok⟩ wOffline =
      (.ok [("Authorization", "Bearer " ++ validTok)],
        ⟨[("CADC_TOKEN", validTok)], some validTok⟩, 0, 0) :=
  datastore_headers_fast_path 0 ⟨[("CADC_TOKEN", validTok)], some validTok⟩
    wOffline validTok rfl (by decide)

/-- C10: `get_server_headers` and `get_datastore_headers` are observably
identical in every state; the server-facing call never omits the
`Authorization` header where the datastore-facing one produces it. -/
theorem server_headers_eq_datastore_headers (fuel : Nat) (st : ManagerState)
    (w : World) :
    get_server_headers fuel st w = get_datastore_headers fuel st w := rfl

/-- C3: with an invalid (expired or absent) cached token, reachable
discovery, and a successful authorization response, the `token` call writes
the full response body into the `CADC_TOKEN` credential slot and the
in-memory field after one discovery and one refresh request, and any
subsequent header call while the new token is within its expiry window
performs zero network requests. -/
theorem refresh_updates_stores_then_quiescent (fuel fuel2 : Nat)
    (st : ManagerState) (w w2 : World) (url body : String)
    (hinv : token_is_valid st._token w.now = false)
    (hurl : get_cadc_authorize_url w.config = .ok url)
    (hcert : w.certExists = true)
    (hbody : w.authorize = .ok body)
    (hvalid : token_is_valid (some body) w.now = true)
    (hvalid2 : token_is_valid (some body) w2.now = true) :
    tokenCall (fuel + 2) st w =
      ⟨.ok body, ⟨envSet st.environ CADC_TOKEN_ENV_VAR body, some body⟩, 1, 1⟩
    ∧ envGet (envSet st.environ CADC_TOKEN_ENV_VAR body) CADC_TOKEN_ENV_VAR =
        some body
    ∧ get_datastore_headers (fuel2 + 1)
        ⟨envSet st.environ CADC_TOKEN_ENV_VAR body, some body⟩ w2 =
      (.ok [("Authorization", "Bearer " ++ body)],
        ⟨envSet st.environ CADC_TOKEN_ENV_VAR body, some body⟩, 0, 0) := by
  have hfast := tokenCall_fast_path fuel
    ⟨envSet st.environ CADC_TOKEN_ENV_VAR body, some body⟩ w body rfl hvalid
  refine ⟨?_, envGet_envSet st.environ CADC_TOKEN_ENV_VAR body, ?_⟩
  · rw [tokenCall_refresh_ok (fuel + 1) st w url body hinv hurl hcert hbody]
    simp [hfast]
  · exact datastore_headers_fast_path fuel2
      ⟨envSet st.environ CADC_TOKEN_ENV_VAR body, some body⟩ w2 body rfl hvalid2

theorem refresh_updates_stores_then_quiescent_witness :
    tokenCall (0 + 2) exStaleSt wRefreshOk =
      ⟨.ok validTok,
        ⟨envSet exStaleSt.environ CADC_TOKEN_ENV_VAR validTok, some validTok⟩, 1, 1⟩
    ∧ envGet (envSet exStaleSt.environ CADC_TOKEN_ENV_VAR validTok)
        CADC_TOKEN_ENV_VAR = some validTok
    ∧ get_datastore_headers (0 + 1)
        ⟨envSet exStaleSt.environ CADC_TOKEN_ENV_VAR validTok, some validTok⟩
        wOffline =
      (.ok [("Authorization", "Bearer " ++ validTok)],
        ⟨envSet exStaleSt.environ CADC_TOKEN_ENV_VAR validTok, some validTok⟩,
        0, 0) :=
  refresh_updates_stores_then_quiescent 0 0 exStaleSt wRefreshOk wOffline
    "https://auth.example/token" validTok (by decide) (by decide) rfl rfl
    (by decide) (by decide)

/-- C9: a token value successfully written to the `CADC_TOKEN` credential
slot by one manager's refresh is read back exactly by a second manager
constructed afterward from the resulting process environment. -/
theorem credential_store_roundtrip (fuel : Nat) (st : ManagerState) (w : World)
    (url body : String)
    (hinv : token_is_valid st._token w.now = false)
    (hurl : get_cadc_authorize_url w.config = .ok url)
    (hcert : w.certExists = true)
    (hbody : w.authorize = .ok body)
    (hvalid : token_is_valid (some body) w.now = true) :
    envGet (tokenCall (fuel + 2) st w).state.environ CADC_TOKEN_ENV_VAR =
      some body
    ∧ (CadcAuthenticationProvider.init
        (tokenCall (fuel + 2) st w).state.environ)._token = some body := by
  have hfast := tokenCall_fast_path fuel
    ⟨envSet st.environ CADC_TOKEN_ENV_VAR body, some body⟩ w body rfl hvalid
  have hcall : tokenCall (fuel + 2) st w =
      ⟨.ok body, ⟨envSet st.environ CADC_TOKEN_ENV_VAR body, some body⟩, 1, 1⟩ := by
    rw [tokenCall_refresh_ok (fuel + 1) st w url body hinv hurl hcert hbody]
    simp [hfast]
  rw [hcall]
  exact ⟨envGet_envSet st.environ CADC_TOKEN_ENV_VAR body,
    envGet_envSet st.environ CADC_TOKEN_ENV_VAR body⟩

theorem credential_store_roundtrip_witness :
    envGet (tokenCall (0 + 2) exStaleSt wRefreshOk).state.environ
        CADC_TOKEN_ENV_VAR = some validTok
    ∧ (CadcAuthenticationProvider.init
        (tokenCall (0 + 2) exStaleSt wRefreshOk).state.environ)._token =
      some validTok :=
  credential_store_roundtrip 0 exStaleSt wRefreshOk
    "https://auth.example/token" validTok (by decide) (by decide) rfl rfl
    (by decide)

/-- Discovery reachable but the certificate file is missing. -/
def wNoCert : World :=
  ⟨100, .jsonOk [("authorization_endpoint", "https://auth.example/token")], false,
    .ok validTok⟩

/-- Discovery reachable; authorization endpoint unreachable. -/
def wRefreshDown : World :=
  ⟨100, .jsonOk [("authorization_endpoint", "https://auth.example/token")], true,
    .error "connection refused"⟩

/-- Refresh succeeds but the returned body is not a decodable token. -/
def wBadBody : World :=
  ⟨100, .jsonOk [("authorization_endpoint", "u")], true, .ok "zz"⟩

/-- C5 counterexample: with an expired cached token, reachable discovery and
a missing certificate file, the call neither returns the last-known token
(policy A) nor raises a dedicated credential-missing error (policy B): the
`OSError` raised by the HTTP library escapes uncaught, and only after the
discovery request has already been performed. -/
theorem cert_missing_policy_counterexample :
    (tokenCall 5 exStaleSt wNoCert).result =
      .error (.osError "Could not find the TLS certificate file")
    ∧ (tokenCall 5 exStaleSt wNoCert).result ≠ .ok expiredTok
    ∧ (tokenCall 5 exStaleSt wNoCert).nDiscovery = 1 := by decide

/-- C5 (amended): the manager never checks that the certificate file exists;
with an invalid cached token and successful discovery, a missing certificate
file makes the refresh escape with the HTTP library's `OSError` (uncaught by
the `except RequestException` clause), after one discovery request and no
refresh request, leaving the state unchanged — neither a stale-token
fallback nor a dedicated credential-missing error. -/
theorem cert_missing_oserror_escapes (fuel : Nat) (st : ManagerState)
    (w : World) (url : String)
    (hinv : token_is_valid st._token w.now = false)
    (hurl : get_cadc_authorize_url w.config = .ok url)
    (hcert : w.certExists = false) :
    tokenCall (fuel + 1) st w =
      ⟨.error (.osError "Could not find the TLS certificate file"), st, 1, 0⟩ := by
  simp [tokenCall, hinv, hurl, hcert]

theorem cert_missing_oserror_escapes_witness :
    tokenCall (4 + 1) exStaleSt wNoCert =
      ⟨.error (.osError "Could not find the TLS certificate file"),
        exStaleSt, 1, 0⟩ :=
  cert_missing_oserror_escapes 4 exStaleSt wNoCert
    "https://auth.example/token" (by decide) (by decide) rfl

/-- C6: when the authorization endpoint is unreachable or answers with a
non-success status (`RequestException` from the GET or from
`raise_for_status`), the call raises the refresh `RuntimeError` carrying the
original cause, after one discovery and one refresh attempt; the stale
cached token is not substituted — no `.ok` result is produced on this
path — and the state is unchanged. -/
theorem refresh_failure_raises_not_stale (fuel : Nat) (st : ManagerState)
    (w : World) (url cause : String)
    (hinv : token_is_valid st._token w.now = false)
    (hurl : get_cadc_authorize_url w.config = .ok url)
    (hcert : w.certExists = true)
    (hfail : w.authorize = .error cause) :
    tokenCall (fuel + 1) st w =
      ⟨.error (.runtimeError "Could not retrieve CADC token" cause), st, 1, 1⟩
    ∧ (∀ t, (tokenCall (fuel + 1) st w).result ≠ .ok t)
    ∧ get_datastore_headers (fuel + 1) st w =
      (.error (.runtimeError "Could not retrieve CADC token" cause), st, 1, 1) := by
  have hcall : tokenCall (fuel + 1) st w =
      ⟨.error (.runtimeError "Could not retrieve CADC token" cause), st, 1, 1⟩ := by
    simp [tokenCall, hinv, hurl, hcert, hfail]
  exact ⟨hcall, fun t => by rw [hcall]; simp,
    by simp [get_datastore_headers, hcall]⟩

theorem refresh_failure_raises_not_stale_witness :
    tokenCall (4 + 1) exStaleSt wRefreshDown =
      ⟨.error (.runtimeError "Could not retrieve CADC token" "connection refused"),
        exStaleSt, 1, 1⟩
    ∧ (∀ t, (tokenCall (4 + 1) exStaleSt wRefreshDown).result ≠ .ok t)
    ∧ get_datastore_headers (4 + 1) exStaleSt wRefreshDown =
      (.error (.runtimeError "Could not retrieve CADC token" "connection refused"),
        exStaleSt, 1, 1) :=
  refresh_failure_raises_not_stale 4 exStaleSt wRefreshDown
    "https://auth.example/token" "connection refused" (by decide) (by decide)
    rfl rfl

/-- C7 counterexample: a configuration document that is fetched and parsed
but lacks `authorization_endpoint` makes `get_cadc_authorize_url` escape
with a `KeyError` from the dict subscript, not with the `RuntimeError` that
realises the spec's `DiscoveryError`. -/
theorem discovery_missing_field_counterexample :
    get_cadc_authorize_url (.jsonOk [("issuer", "https://cadc.example")]) =
      .error (.keyError "authorization_endpoint")
    ∧ isDiscoveryError
        (get_cadc_authorize_url (.jsonOk [("issuer", "https://cadc.example")])) =
      false := by decide

/-- C7 (amended): `get_cadc_authorize_url` raises the discovery
`RuntimeError` exactly when the configuration document cannot be fetched or
cannot be parsed; a parsed document lacking the `authorization_endpoint`
field instead escapes with an uncaught `KeyError`; on success the field's
value is returned.  A single fetch outcome decides the call — no retry at
this layer. -/
theorem authorize_url_cases (fetch : ConfigFetch) :
    (∀ e, fetch = .transportError e →
      get_cadc_authorize_url fetch =
        .error (.runtimeError "Could not retrieve CADC authorization URL" e))
    ∧ (∀ e, fetch = .parseError e →
      get_cadc_authorize_url fetch =
        .error (.runtimeError "Could not retrieve CADC authorization URL" e))
    ∧ (∀ cfg url, fetch = .jsonOk cfg →
        cfg.lookup "authorization_endpoint" = some url →
        get_cadc_authorize_url fetch = .ok url)
    ∧ (∀ cfg, fetch = .jsonOk cfg →
        cfg.lookup "authorization_endpoint" = none →
        get_cadc_authorize_url fetch = .error (.keyError "authorization_endpoint")) := by
  refine ⟨?_, ?_, ?_, ?_⟩
  · intro e he; subst he; rfl
  · intro e he; subst he; rfl
  · intro cfg url hf hl; subst hf; simp [get_cadc_authorize_url, hl]
  · intro cfg hf hl; subst hf; simp [get_cadc_authorize_url, hl]

theorem authorize_url_cases_witness :
    get_cadc_authorize_url (.transportError "refused") =
      .error (.runtimeError "Could not retrieve CADC authorization URL" "refused")
    ∧ get_cadc_authorize_url (.parseError "bad json") =
      .error (.runtimeError "Could not retrieve CADC authorization URL" "bad json")
    ∧ get_cadc_authorize_url
        (.jsonOk [("authorization_endpoint", "https://auth.example/token")]) =
      .ok "https://auth.example/token"
    ∧ get_cadc_authorize_url (.jsonOk []) =
      .error (.keyError "authorization_endpoint") :=
  ⟨(authorize_url_cases (.transportError "refused")).1 "refused" rfl,
   (authorize_url_cases (.parseError "bad json")).2.1 "bad json" rfl,
   (authorize_url_cases
      (.jsonOk [("authorization_endpoint", "https://auth.example/token")])).2.2.1
     [("authorization_endpoint", "https://auth.example/token")]
     "https://auth.example/token" rfl (by decide),
   (authorize_url_cases (.jsonOk [])).2.2.2 [] rfl rfl⟩

/-- C8 counterexample: when the refresh succeeds but returns a token that is
still invalid, the self-recursive `token` property (`return self.token`)
refreshes again: with fuel 3 a single header-token call performs 3 discovery
and 3 refresh requests and ends in recursion overflow, refuting the
at-most-one bound "regardless of the validity of the token obtained". -/
theorem header_call_bound_counterexample :
    tokenCall 3 ⟨[], none⟩ wBadBody =
      ⟨.error .recursionError, ⟨[("CADC_TOKEN", "zz")], some "zz"⟩, 3, 3⟩
    ∧ ¬((tokenCall 3 ⟨[], none⟩ wBadBody).nRefresh ≤ 1) := by decide

/-- C8 (amended): if every successful refresh body in the world is a valid
token, each token call performs at most one discovery and one refresh
request; but when the refresh succeeds with a body that is still invalid,
the call recurses, performing one discovery and one refresh per unit of
fuel and ending in recursion overflow — the at-most-one bound fails exactly
in that case. -/
theorem header_call_discovery_refresh_bound (n : Nat) (st st2 : ManagerState)
    (w w2 : World) (body url : String)
    (h1 : ∀ b, w.authorize = .ok b → token_is_valid (some b) w.now = true)
    (h2 : w2.authorize = .ok body)
    (h3 : token_is_valid (some body) w2.now = false)
    (h4 : token_is_valid st2._token w2.now = false)
    (h5 : get_cadc_authorize_url w2.config = .ok url)
    (h6 : w2.certExists = true) :
    ((tokenCall (n + 2) st w).nDiscovery ≤ 1
      ∧ (tokenCall (n + 2) st w).nRefresh ≤ 1)
    ∧ ((tokenCall (n + 1) st2 w2).nDiscovery = n + 1
      ∧ (tokenCall (n + 1) st2 w2).nRefresh = n + 1
      ∧ (tokenCall (n + 1) st2 w2).result = .error .recursionError) := by
  constructor
  · by_cases hv : token_is_valid st._token w.now = true
    · obtain ⟨t, ht⟩ : ∃ t, st._token = some t := by
        cases hst : st._token with
        | none => rw [hst] at hv; simp [token_is_valid] at hv
        | some t => exact ⟨t, rfl⟩
      rw [tokenCall_fast_path (n + 1) st w t ht hv]
      simp
    · have hv' : token_is_valid st._token w.now = false := by simpa using hv
      cases hu : get_cadc_authorize_url w.config with
      | error e => simp [tokenCall, hv', hu]
      | ok url2 =>
        cases hc : w.certExists with
        | false => simp [tokenCall, hv', hu, hc]
        | true =>
          cases ha : w.authorize with
          | error c => simp [tokenCall, hv', hu, hc, ha]
          | ok b =>
            have hfast := tokenCall_fast_path n
              ⟨envSet st.environ CADC_TOKEN_ENV_VAR b, some b⟩ w b rfl (h1 b ha)
            rw [tokenCall_refresh_ok (n + 1) st w url2 b hv' hu hc ha]
            simp [hfast]
  · induction n generalizing st2 with
    | zero =>
      rw [tokenCall_refresh_ok 0 st2 w2 url body h4 h5 h6 h2]
      simp [tokenCall]
    | succ m ih =>
      rw [tokenCall_refresh_ok (m + 1) st2 w2 url body h4 h5 h6 h2]
      have hin := ih ⟨envSet st2.environ CADC_TOKEN_ENV_VAR body, some body⟩ h3
      refine ⟨?_, ?_, ?_⟩
      · simp [hin.1]; omega
      · simp [hin.2.1]; omega
      · simp [hin.2.2]

theorem header_call_discovery_refresh_bound_witness :
    ((tokenCall (2 + 2) ⟨[], none⟩ wRefreshOk).nDiscovery ≤ 1
      ∧ (tokenCall (2 + 2) ⟨[], none⟩ wRefreshOk).nRefresh ≤ 1)
    ∧ ((tokenCall (2 + 1) ⟨[], none⟩ wBadBody).nDiscovery = 2 + 1
      ∧ (tokenCall (2 + 1) ⟨[], none⟩ wBadBody).nRefresh = 2 + 1
      ∧ (tokenCall (2 + 1) ⟨[], none⟩ wBadBody).result = .error .recursionError) :=
  header_call_discovery_refresh_bound 2 ⟨[], none⟩ ⟨[], none⟩ wRefreshOk
    wBadBody "zz" "u"
    (fun b hb => by
      have hbv : validTok = b := by
        have := hb
        injection this
      rw [← hbv]; decide)
    rfl (by decide) (by decide) (by decide) rfl

end CadcAuth
